import Mathlib

/-!
Shallow embedding of the lavaplayer client (src/lavaplayer/client.py and
src/lavaplayer/websocket.py): the per-guild session registry, the command
API of `LavalinkClient`, and the inbound-frame handler `WS.callback`.

Outbound websocket frames (`self._ws.send(...)`) are modelled as values of
an inductive `Frame` collected in a list; events published through the
emitter (`self.emitter.emit(...)`) are collected as values of `Emitted`.
Python exceptions (`NodeError`, `VolumeError`, and the interpreter-level
errors produced by dereferencing `None` or popping a missing dict key) are
modelled with `Except`: an `Except.error` result means the exception
propagated to the caller before any frame was sent, and carries no state,
matching the fact that in the source no command sends a frame or keeps a
mutation after raising.
-/

namespace Lavaplayer

/-- Modelled from the spec: the Track record of `objects.py` (the file is
absent from src/; §3 of the spec lists its fields, and `client.py` shows the
constructor keywords in `_prossing_tracks` and the `requester` attribute set
in `play`). `track` is the encoded handle understood by the remote node. -/
structure Track where
  track : String
  identifier : String
  isSeekable : Bool
  author : String
  length : Nat
  isStream : Bool
  position : Nat
  sourceName : Option String
  title : Option String
  uri : String
  requester : Option Nat := none
deriving DecidableEq

/-- Modelled from the spec: the Session ("Node") record of `objects.py`
(absent from src/): per-guild queue, volume (default 100), repeat flag and
connectivity flag; `client.py` constructs it as
`Node(guild_id, [], 100, is_connected=...)`, so `repeat` defaults to false. -/
structure Node where
  guild_id : Nat
  queue : List Track
  volume : Int
  is_connected : Bool
  «repeat» : Bool := false
deriving DecidableEq

/-- Modelled from the spec: the node health snapshot (`Info` in
`objects.py`), overwritten wholesale on each stats frame. -/
structure Info where
  playingPlayers : Nat
  memory_used : Nat
  memory_free : Nat
  players : Nat
  uptime : Nat
deriving DecidableEq

/-- The mutable state of a `LavalinkClient` that the claims concern:
`_nodes` (the session registry, a dict keyed by guild id) and `info`. -/
structure ClientState where
  nodes : Nat → Option Node
  info : Option Info

/-- The initial client state: `self._nodes = {}` and `self.info = None`. -/
def initState : ClientState := ⟨fun _ => none, none⟩

/-- One outbound websocket frame, as built by the dict literals passed to
`self._ws.send` in `client.py`. -/
inductive Frame
  | voiceUpdate (guildId : Nat) (sessionId : String) (token : String) (endpoint : String)
  | play (guildId : Nat) (track : String) (startTime : String) (noReplace : Bool)
  | stop (guildId : Nat)
  | pause (guildId : Nat) (paused : Bool)
  | seek (guildId : Nat) (position : Int)
  | volume (guildId : Nat) (vol : Int)
  | destroy (guildId : Nat)
  | filtersPayload (guildId : Nat)
deriving DecidableEq

/-- One event published through the emitter by `WS.callback`. -/
inductive Emitted
  | playerUpdate (guildId : Nat) (time : Nat) (position : Option Nat) (connected : Bool)
  | trackStart (track : Track) (guildId : Nat)
  | trackEnd (track : Track) (guildId : Nat) (reason : String)
  | trackException (track : Track) (guildId : Nat) (exc : String) (msg : String) (severity : String) (cause : String)
  | trackStuck (track : Track) (guildId : Nat) (thresholdMs : Nat)
  | webSocketClosed (track : Track) (guildId : Nat) (code : Int) (reason : String) (byRemote : Bool)
deriving DecidableEq

/-- The exceptions the embedded code can raise: `NodeError` and
`VolumeError` from `exceptions.py`, plus the Python interpreter errors the
source can produce (`AttributeError` from dereferencing `None`, `KeyError`
from `dict.pop` on a missing key). -/
inductive LavaError
  | nodeError (message : String) (guild_id : Nat)
  | volumeError (message : String) (guild_id : Nat)
  | attributeError
  | keyError
deriving DecidableEq

/-- Result of a command: the client state after the call and the frames it
sent, or the exception it raised. -/
abbrev CmdResult (α : Type) := Except LavaError (ClientState × α)

/-- LavalinkClient.get_guild_node: `self._nodes.get(guild_id)`. -/
def get_guild_node (st : ClientState) (guild_id : Nat) : Option Node :=
  st.nodes guild_id

/-- LavalinkClient.set_guild_node: `self._nodes[guild_id] = node` (the
preceding `get_guild_node` call in the source discards its result). -/
def set_guild_node (st : ClientState) (guild_id : Nat) (node : Node) : ClientState :=
  { st with nodes := fun g => if g = guild_id then some node else st.nodes g }

/-- LavalinkClient.remove_guild_node: fetches the node for `guild_id` and
then pops the dict at `node.guild_id`. A `None` node makes
`node.guild_id` raise AttributeError; `dict.pop` on a missing key raises
KeyError. -/
def remove_guild_node (st : ClientState) (guild_id : Nat) : Except LavaError ClientState :=
  match get_guild_node st guild_id with
  | none => .error .attributeError
  | some node =>
    match st.nodes node.guild_id with
    | none => .error .keyError
    | some _ => .ok { st with nodes := fun g => if g = node.guild_id then none else st.nodes g }

/-- LavalinkClient.create_new_node:
`Node(guild_id, [], 100, is_connected=is_connected)` stored at `guild_id`. -/
def create_new_node (st : ClientState) (guild_id : Nat) (is_connected : Bool) : ClientState :=
  set_guild_node st guild_id { guild_id := guild_id, queue := [], volume := 100, is_connected := is_connected }

/-- LavalinkClient.play: fetch the node (NodeError when absent), build the
play payload; when `start` is true send it at once leaving the queue alone;
otherwise attach the requester, append to the queue tail, persist, and send
the payload only when the queue length is now exactly 1. -/
def play (st : ClientState) (guild_id : Nat) (track : Track) (requester : Option Nat) (start : Bool) : CmdResult (List Frame) :=
  match get_guild_node st guild_id with
  | none => .error (.nodeError "Node not found" guild_id)
  | some node =>
    let payload := Frame.play guild_id track.track "0" false
    if start then .ok (st, [payload])
    else
      let track' := { track with requester := requester }
      let node' := { node with queue := node.queue ++ [track'] }
      let st' := set_guild_node st guild_id node'
      if node'.queue.length ≠ 1 then .ok (st', [])
      else .ok (st', [payload])

/-- LavalinkClient.stop: fetches the node and immediately evaluates
`len(node.queue)` — a missing node is a `None` dereference (AttributeError),
an empty queue raises `NodeError("Node not found")`; otherwise the queue is
cleared, persisted, and one stop frame is sent. -/
def stop (st : ClientState) (guild_id : Nat) : CmdResult (List Frame) :=
  match get_guild_node st guild_id with
  | none => .error .attributeError
  | some node =>
    if node.queue.length = 0 then .error (.nodeError "Node not found" guild_id)
    else .ok (set_guild_node st guild_id { node with queue := [] }, [Frame.stop guild_id])

/-- LavalinkClient.skip: NodeError when the node is absent; silent return
when the queue is empty; otherwise one stop frame, no state change. -/
def skip (st : ClientState) (guild_id : Nat) : CmdResult (List Frame) :=
  match get_guild_node st guild_id with
  | none => .error (.nodeError "Node not found" guild_id)
  | some node =>
    if node.queue.length = 0 then .ok (st, [])
    else .ok (st, [Frame.stop guild_id])

/-- LavalinkClient.pause: NodeError when the node is absent; otherwise one
pause frame, no state change. -/
def pause (st : ClientState) (guild_id : Nat) (stats : Bool) : CmdResult (List Frame) :=
  match get_guild_node st guild_id with
  | none => .error (.nodeError "Node not found" guild_id)
  | some _ => .ok (st, [Frame.pause guild_id stats])

/-- LavalinkClient.seek: NodeError when the node is absent; otherwise one
seek frame, no state change. -/
def seek (st : ClientState) (guild_id : Nat) (position : Int) : CmdResult (List Frame) :=
  match get_guild_node st guild_id with
  | none => .error (.nodeError "Node not found" guild_id)
  | some _ => .ok (st, [Frame.seek guild_id position])

/-- LavalinkClient.volume: the range check `volume < 0 or volume > 1000`
runs before the registry lookup; then NodeError when the node is absent;
otherwise the volume is persisted and one volume frame is sent. -/
def volume (st : ClientState) (guild_id : Nat) (vol : Int) : CmdResult (List Frame) :=
  if vol < 0 ∨ vol > 1000 then .error (.volumeError "Volume may range from 0 to 1000. 100 is default" guild_id)
  else
    match get_guild_node st guild_id with
    | none => .error (.nodeError "Node not found" guild_id)
    | some node => .ok (set_guild_node st guild_id { node with volume := vol }, [Frame.volume guild_id vol])

/-- LavalinkClient.repeat: fetches the node and immediately assigns
`node.repeat = stats` — a missing node is a `None` dereference
(AttributeError); otherwise the flag is persisted and no frame is sent. -/
def «repeat» (st : ClientState) (guild_id : Nat) (stats : Bool) : CmdResult (List Frame) :=
  match get_guild_node st guild_id with
  | none => .error .attributeError
  | some node => .ok (set_guild_node st guild_id { node with «repeat» := stats }, [])

/-- LavalinkClient.filters: NodeError when the node is absent; otherwise the
caller-supplied payload is sent with the guild id attached, no state
change. -/
def filters (st : ClientState) (guild_id : Nat) : CmdResult (List Frame) :=
  match get_guild_node st guild_id with
  | none => .error (.nodeError "Node not found" guild_id)
  | some _ => .ok (st, [Frame.filtersPayload guild_id])

/-- LavalinkClient.destroy: NodeError when the node is absent; otherwise
removes the registry entry via `remove_guild_node` and then sends one
destroy frame. -/
def destroy (st : ClientState) (guild_id : Nat) : CmdResult (List Frame) :=
  match get_guild_node st guild_id with
  | none => .error (.nodeError "Node not found" guild_id)
  | some _ =>
    match remove_guild_node st guild_id with
    | .error e => .error e
    | .ok st' => .ok (st', [Frame.destroy guild_id])

/-- Python `list.remove(x)`: delete the first element equal to `x`. -/
def listRemove (l : List Track) (x : Track) : List Track :=
  match l with
  | [] => []
  | a :: as => if a = x then as else a :: listRemove as x

/-- LavalinkClient.shuffle, with `random.sample(queue, len(queue))`
abstracted as the function argument `sample` (the randomness source).
NodeError when the node is absent; an empty queue returns the empty-list
result and changes nothing; otherwise the head is taken out with
`queue.remove`, the rest is resampled, the head is reinserted at index 0,
and the node is persisted and returned. -/
def shuffle (sample : List Track → List Track) (st : ClientState) (guild_id : Nat) : CmdResult (Option Node) :=
  match get_guild_node st guild_id with
  | none => .error (.nodeError "Node not found" guild_id)
  | some node =>
    match node.queue with
    | [] => .ok (st, none)
    | np :: _ =>
      let q1 := listRemove node.queue np
      let node' := { node with queue := np :: sample q1 }
      .ok (set_guild_node st guild_id node', some node')

/-- Python truthiness of the `channel_id: Optional[int]` argument:
`if not channel_id` is taken for `None` and for `0`. -/
def channelFalsy : Option Int → Bool
  | none => true
  | some c => c == 0

/-- LavalinkClient.voice_update: a falsy channel id is a disconnect signal
and delegates to `destroy`; otherwise one voiceUpdate frame is sent (with
the endpoint's "wss://" prefix text removed) and the session entry is
created/overwritten with `is_connected = True`. -/
def voice_update (st : ClientState) (guild_id : Nat) (session_id : String) (token : String) (endpoint : String) (channel_id : Option Int) : CmdResult (List Frame) :=
  if channelFalsy channel_id then destroy st guild_id
  else
    let frame := Frame.voiceUpdate guild_id session_id token (endpoint.replace "wss://" "")
    .ok (create_new_node st guild_id true, [frame])

/-- The fields an `op = "event"` inbound frame can carry, one record
mirroring the JSON dict keys read by `WS.callback` (`track` is read with
`.get` and may be missing; the remaining keys are read per event type). -/
structure EventFrame where
  track : Option String
  guildId : Nat
  etype : String
  reason : String := ""
  code : Int := 0
  byRemote : Bool := false
  exc : String := ""
  msg : String := ""
  severity : String := ""
  cause : String := ""
  thresholdMs : Nat := 0
deriving DecidableEq

/-- One inbound frame, classified by the `op` discriminator as in
`WS.callback`; anything other than stats / playerUpdate / event is
ignored. -/
inductive Payload
  | stats (playingPlayers : Nat) (memory_used : Nat) (memory_free : Nat) (players : Nat) (uptime : Nat)
  | playerUpdate (guildId : Nat) (time : Nat) (position : Option Nat) (connected : Bool)
  | event (e : EventFrame)
  | unknown

/-- WS.callback, the inbound-frame handler, with the `/decodetrack` lookup
(`self.client._decodetrack`) abstracted as the function argument `decode`
(in the source the decoded Track's handle is the string passed in). Event
frames with a missing or empty `track` value return before anything is
decoded or published. The `get_guild_node` call is wrapped in
try/except NodeError in the source, but `get_guild_node` cannot raise, so
the node is the plain lookup result. -/
def callback (decode : String → Track) (st : ClientState) (p : Payload) : CmdResult (List Frame × List Emitted) :=
  match p with
  | .stats pp mu mf pl up => .ok ({ st with info := some ⟨pp, mu, mf, pl, up⟩ }, [], [])
  | .playerUpdate gid time pos conn => .ok (st, [], [.playerUpdate gid time pos conn])
  | .unknown => .ok (st, [], [])
  | .event e =>
    match e.track with
    | none => .ok (st, [], [])
    | some h =>
      if h.isEmpty then .ok (st, [], [])
      else
        let track := decode h
        let gid := e.guildId
        if e.etype = "TrackStartEvent" then .ok (st, [], [.trackStart track gid])
        else if e.etype = "TrackEndEvent" then
          let ev := Emitted.trackEnd track gid e.reason
          match get_guild_node st gid with
          | none => .ok (st, [], [ev])
          | some node =>
            match node.queue with
            | [] => .ok (st, [], [ev])
            | q0 :: qrest =>
              if node.repeat then
                match play st gid track q0.requester true with
                | .error err => .error err
                | .ok (st2, fs) => .ok (st2, fs, [ev])
              else
                let node' := { node with queue := qrest }
                let st2 := set_guild_node st gid node'
                match qrest with
                | [] => .ok (st2, [], [ev])
                | q1 :: _ =>
                  match play st2 gid q1 q1.requester true with
                  | .error err => .error err
                  | .ok (st3, fs) => .ok (st3, fs, [ev])
        else if e.etype = "TrackExceptionEvent" then .ok (st, [], [.trackException track gid e.exc e.msg e.severity e.cause])
        else if e.etype = "TrackStuckEvent" then .ok (st, [], [.trackStuck track gid e.thresholdMs])
        else if e.etype = "WebSocketClosedEvent" then .ok (st, [], [.webSocketClosed track gid e.code e.reason e.byRemote])
        else .ok (st, [], [])

/-- The state a command left behind: the ok-state, or the original state
when the command raised (an exception in the source propagates before any
registry write on every raising path). -/
def stateOf {α : Type} (st : ClientState) (r : CmdResult α) : ClientState :=
  match r with
  | .ok (s, _) => s
  | .error _ => st

/-- The frames a command sent (none when it raised). -/
def framesOf (r : CmdResult (List Frame)) : List Frame :=
  match r with
  | .ok (_, fs) => fs
  | .error _ => []

/-- The frames the inbound handler sent. -/
def cbFrames (r : CmdResult (List Frame × List Emitted)) : List Frame :=
  match r with
  | .ok (_, fs, _) => fs
  | .error _ => []

/-- The events the inbound handler published. -/
def cbEmitted (r : CmdResult (List Frame × List Emitted)) : List Emitted :=
  match r with
  | .ok (_, _, es) => es
  | .error _ => []

/-- A registry is well keyed when every stored node records the guild id it
is stored under. `create_new_node` establishes this and every command
preserves it, since commands only store back (a field update of) the node
fetched under the same key. -/
def WellKeyed (st : ClientState) : Prop :=
  ∀ g n, st.nodes g = some n → n.guild_id = g

/-- A convenience constructor for concrete tracks: only the handle matters
to the claims. -/
def mkTrack (h : String) : Track :=
  { track := h, identifier := "", isSeekable := false, author := "", length := 0,
    isStream := false, position := 0, sourceName := none, title := none, uri := "" }

theorem nodes_set_eq (st : ClientState) (gid : Nat) (n : Node) :
    (set_guild_node st gid n).nodes gid = some n := by
  simp [set_guild_node]

theorem nodes_set_ne (st : ClientState) (gid : Nat) (n : Node) (g' : Nat) (h : g' ≠ gid) :
    (set_guild_node st gid n).nodes g' = st.nodes g' := by
  simp [set_guild_node, h]

theorem get_set_eq (st : ClientState) (gid : Nat) (n : Node) :
    get_guild_node (set_guild_node st gid n) gid = some n :=
  nodes_set_eq st gid n

theorem wellKeyed_init : WellKeyed initState := by
  intro g n h
  simp [initState] at h

theorem wellKeyed_set (st : ClientState) (gid : Nat) (n : Node) (hst : WellKeyed st)
    (hn : n.guild_id = gid) : WellKeyed (set_guild_node st gid n) := by
  intro g m h
  simp only [set_guild_node] at h
  by_cases hg : g = gid
  · rw [if_pos hg] at h
    cases h
    rw [hn, hg]
  · rw [if_neg hg] at h
    exact hst g m h

/-- C1: for an existing session, play without the force flag appends the
requester-tagged track to the queue tail, persists the session, and sends a
play frame exactly when the queue length after the append is 1; with a
previously non-empty queue zero play frames are sent. -/
theorem play_appends_and_starts_only_sole (st : ClientState) (guild_id : Nat) (node : Node)
    (track : Track) (requester : Option Nat)
    (h : get_guild_node st guild_id = some node) :
    ∃ st2 frames,
      play st guild_id track requester false = .ok (st2, frames)
      ∧ get_guild_node st2 guild_id = some { node with queue := node.queue ++ [{ track with requester := requester }] }
      ∧ (frames = [Frame.play guild_id track.track "0" false]
          ↔ (node.queue ++ [{ track with requester := requester }]).length = 1)
      ∧ (1 ≤ node.queue.length → frames = []) := by
  by_cases hq : node.queue = []
  · refine ⟨set_guild_node st guild_id { node with queue := node.queue ++ [{ track with requester := requester }] },
      [Frame.play guild_id track.track "0" false], ?_, get_set_eq _ _ _, ?_, ?_⟩
    · simp [play, h, hq]
    · simp [hq]
    · intro hlen
      rw [hq] at hlen
      simp at hlen
  · refine ⟨set_guild_node st guild_id { node with queue := node.queue ++ [{ track with requester := requester }] },
      [], ?_, get_set_eq _ _ _, ?_, fun _ => rfl⟩
    · simp [play, h, hq]
    · constructor
      · intro hfs
        exact absurd hfs (by simp)
      · intro hlen
        simp at hlen
        exact absurd hlen hq

/-- Concrete session used by the C1 witness. -/
def nodeW : Node := { guild_id := 1, queue := [], volume := 100, is_connected := true }

/-- Concrete registry used by the C1 witness: one session at guild 1. -/
def stW : ClientState := ⟨fun g => if g = 1 then some nodeW else none, none⟩

/-- Witness for C1 at guild 1, the empty queue and track "A". -/
theorem play_appends_witness :
    ∃ st2 frames,
      play stW 1 (mkTrack "A") none false = .ok (st2, frames)
      ∧ get_guild_node st2 1 = some { nodeW with queue := nodeW.queue ++ [{ mkTrack "A" with requester := none }] }
      ∧ (frames = [Frame.play 1 (mkTrack "A").track "0" false]
          ↔ (nodeW.queue ++ [{ mkTrack "A" with requester := none }]).length = 1)
      ∧ (1 ≤ nodeW.queue.length → frames = []) :=
  play_appends_and_starts_only_sole stW 1 nodeW (mkTrack "A") none rfl

/-- Session with repeat on and head track "B", for the C2 analysis. -/
def nodeR : Node := { guild_id := 1, queue := [mkTrack "B"], volume := 100, is_connected := true, «repeat» := true }

/-- Registry holding only `nodeR` at guild 1. -/
def stR : ClientState := ⟨fun g => if g = 1 then some nodeR else none, none⟩

/-- Inbound TrackEnd frame for guild 1 whose track handle is "A". -/
def evA : EventFrame := { track := some "A", guildId := 1, etype := "TrackEndEvent", reason := "FINISHED" }

/-- C2 (counterexample): on a TrackEnd event for an existing session with
repeat on and non-empty queue, the handler re-sends the event's own track
("A"), not the queue head ("B"): the claim that the head track is re-sent is
false at this input. -/
theorem trackEnd_repeat_claim_false :
    cbFrames (callback mkTrack stR (.event evA)) = [Frame.play 1 "A" "0" false]
    ∧ nodeR.queue = [mkTrack "B"]
    ∧ nodeR.repeat = true
    ∧ Frame.play 1 "A" "0" false ≠ Frame.play 1 (mkTrack "B").track "0" false :=
  ⟨rfl, rfl, rfl, by decide⟩

/-- C2 (amended): on a TrackEnd event for an existing session with repeat on
and non-empty queue, the handler re-sends the event's decoded track (not
necessarily the queue head) via one forced play frame, and the client state
— hence the queue — is unchanged. -/
theorem trackEnd_repeat_resends_event_track (decode : String → Track) (st : ClientState)
    (e : EventFrame) (h : String) (node : Node) (q0 : Track) (qrest : List Track)
    (htrack : e.track = some h) (hne : h.isEmpty = false) (htype : e.etype = "TrackEndEvent")
    (hnode : get_guild_node st e.guildId = some node) (hq : node.queue = q0 :: qrest)
    (hrep : node.repeat = true) :
    callback decode st (.event e) =
      .ok (st, [Frame.play e.guildId (decode h).track "0" false],
           [Emitted.trackEnd (decode h) e.guildId e.reason]) := by
  simp [callback, htrack, hne, htype, hnode, hq, hrep, play]

/-- Witness for C2's amended theorem at the concrete state `stR`. -/
theorem trackEnd_repeat_witness :
    callback mkTrack stR (.event evA) =
      .ok (stR, [Frame.play 1 (mkTrack "A").track "0" false],
           [Emitted.trackEnd (mkTrack "A") 1 "FINISHED"]) :=
  trackEnd_repeat_resends_event_track mkTrack stR evA "A" nodeR (mkTrack "B") [] rfl rfl rfl rfl rfl rfl

/-- C3: on a TrackEnd event for an existing session with repeat off and a
two-element queue, the original head is removed, the second track is
forced-played as the new head, and the final queue length is 1. -/
theorem trackEnd_advances_two_element_queue (decode : String → Track) (st : ClientState)
    (e : EventFrame) (h : String) (node : Node) (q0 q1 : Track)
    (htrack : e.track = some h) (hne : h.isEmpty = false) (htype : e.etype = "TrackEndEvent")
    (hnode : get_guild_node st e.guildId = some node) (hq : node.queue = [q0, q1])
    (hrep : node.repeat = false) :
    ∃ st2, callback decode st (.event e) =
        .ok (st2, [Frame.play e.guildId q1.track "0" false],
             [Emitted.trackEnd (decode h) e.guildId e.reason])
      ∧ get_guild_node st2 e.guildId = some { node with queue := [q1] }
      ∧ ({ node with queue := [q1] } : Node).queue.length = 1 := by
  refine ⟨set_guild_node st e.guildId { node with queue := [q1] }, ?_, get_set_eq _ _ _, rfl⟩
  simp [callback, htrack, hne, htype, hnode, hq, hrep, play, get_set_eq]

/-- Session with repeat off and queue ["B", "C"], for the C3 witness. -/
def nodeT : Node := { guild_id := 1, queue := [mkTrack "B", mkTrack "C"], volume := 100, is_connected := true }

/-- Registry holding only `nodeT` at guild 1. -/
def stT : ClientState := ⟨fun g => if g = 1 then some nodeT else none, none⟩

/-- Witness for C3 at the concrete state `stT`. -/
theorem trackEnd_advances_witness :
    ∃ st2, callback mkTrack stT (.event evA) =
        .ok (st2, [Frame.play 1 (mkTrack "C").track "0" false],
             [Emitted.trackEnd (mkTrack "A") 1 "FINISHED"])
      ∧ get_guild_node st2 1 = some { nodeT with queue := [mkTrack "C"] }
      ∧ ({ nodeT with queue := [mkTrack "C"] } : Node).queue.length = 1 :=
  trackEnd_advances_two_element_queue mkTrack stT evA "A" nodeT (mkTrack "B") (mkTrack "C")
    rfl rfl rfl rfl rfl rfl

/-- C4 (code-bug evaluation): with an empty registry, play, skip, pause,
seek, volume (in-range), filters, shuffle and destroy all raise
NodeError("Node not found") after their lookup, but `stop` and `repeat`
dereference the missing node first and crash with AttributeError — in
`stop`'s case contradicting the method's own docstring, which promises
NodeError when the guild is not in the node cache. -/
theorem stop_and_repeat_crash_on_absent_session :
    stop initState 1 = .error .attributeError
    ∧ «repeat» initState 1 true = .error .attributeError
    ∧ play initState 1 (mkTrack "A") none false = .error (.nodeError "Node not found" 1)
    ∧ skip initState 1 = .error (.nodeError "Node not found" 1)
    ∧ pause initState 1 true = .error (.nodeError "Node not found" 1)
    ∧ seek initState 1 0 = .error (.nodeError "Node not found" 1)
    ∧ volume initState 1 100 = .error (.nodeError "Node not found" 1)
    ∧ filters initState 1 = .error (.nodeError "Node not found" 1)
    ∧ shuffle id initState 1 = .error (.nodeError "Node not found" 1)
    ∧ destroy initState 1 = .error (.nodeError "Node not found" 1) :=
  ⟨rfl, rfl, rfl, rfl, rfl, rfl, rfl, rfl, rfl, rfl⟩

/-- C5: an out-of-range volume raises VolumeError for every client state —
in particular before and independently of the registry lookup, with no
frame and no mutation — while volume 0 and volume 1000 on an existing
session persist the new value and send exactly one volume frame each. -/
theorem volume_range_and_success :
    (∀ (st : ClientState) (gid : Nat) (v : Int), (v < 0 ∨ v > 1000) →
       volume st gid v = .error (.volumeError "Volume may range from 0 to 1000. 100 is default" gid))
    ∧ (∀ (st : ClientState) (gid : Nat) (node : Node), get_guild_node st gid = some node →
        volume st gid 0 = .ok (set_guild_node st gid { node with volume := 0 }, [Frame.volume gid 0])
        ∧ volume st gid 1000 = .ok (set_guild_node st gid { node with volume := 1000 }, [Frame.volume gid 1000])) := by
  constructor
  · intro st gid v hv
    unfold volume
    rw [if_pos hv]
  · intro st gid node h
    constructor <;> simp [volume, h]

/-- Witness for C5: volume 1001 and -1 raise VolumeError even though guild
1 exists, and volume 0 and 1000 succeed with one frame each. -/
theorem volume_witness :
    volume stW 1 1001 = .error (.volumeError "Volume may range from 0 to 1000. 100 is default" 1)
    ∧ volume stW 1 (-1) = .error (.volumeError "Volume may range from 0 to 1000. 100 is default" 1)
    ∧ volume stW 1 0 = .ok (set_guild_node stW 1 { nodeW with volume := 0 }, [Frame.volume 1 0])
    ∧ volume stW 1 1000 = .ok (set_guild_node stW 1 { nodeW with volume := 1000 }, [Frame.volume 1 1000]) :=
  ⟨volume_range_and_success.1 stW 1 1001 (by norm_num),
   volume_range_and_success.1 stW 1 (-1) (by norm_num),
   (volume_range_and_success.2 stW 1 nodeW rfl).1,
   (volume_range_and_success.2 stW 1 nodeW rfl).2⟩

/-- C6: for an existing session, stop with an empty queue raises the
"session not found" error kind (NodeError) and sends nothing, while stop
with a non-empty queue clears the queue, persists the session, and sends
exactly one stop frame. -/
theorem stop_empty_errors_nonempty_clears :
    (∀ (st : ClientState) (gid : Nat) (node : Node), get_guild_node st gid = some node →
       node.queue = [] → stop st gid = .error (.nodeError "Node not found" gid))
    ∧ (∀ (st : ClientState) (gid : Nat) (node : Node), get_guild_node st gid = some node →
       node.queue ≠ [] →
       stop st gid = .ok (set_guild_node st gid { node with queue := [] }, [Frame.stop gid])) := by
  constructor
  · intro st gid node h hq
    simp [stop, h, hq]
  · intro st gid node h hq
    simp [stop, h, hq]

/-- Witness for C6: stop errors at guild 1 of `stW` (empty queue) and clears
the two-element queue of `stT`. -/
theorem stop_witness :
    stop stW 1 = .error (.nodeError "Node not found" 1)
    ∧ stop stT 1 = .ok (set_guild_node stT 1 { nodeT with queue := [] }, [Frame.stop 1]) :=
  ⟨stop_empty_errors_nonempty_clears.1 stW 1 nodeW rfl rfl,
   stop_empty_errors_nonempty_clears.2 stT 1 nodeT rfl (by decide)⟩

/-- Inbound WebSocketClosedEvent frame carrying no track value. -/
def evWsNoTrack : EventFrame :=
  { track := none, guildId := 1, etype := "WebSocketClosedEvent", reason := "closed", code := 4000, byRemote := true }

/-- C7 (counterexample): a WebSocketClosedEvent frame with no track value is
dropped by the handler's early `track` guard — no ChannelClosed event is
published for it, refuting the claim for this frame (the registry is indeed
left unchanged). -/
theorem wsClosed_without_track_publishes_nothing :
    evWsNoTrack.etype = "WebSocketClosedEvent"
    ∧ cbEmitted (callback mkTrack stR (.event evWsNoTrack)) = []
    ∧ stateOf stR (callback mkTrack stR (.event evWsNoTrack)) = stR :=
  ⟨rfl, rfl, rfl⟩

/-- C7 (amended): a WebSocketClosedEvent frame that does carry a non-empty
track value publishes exactly one ChannelClosed event with the frame's
code, reason and byRemote fields, and leaves the client state — hence the
registry entry of the frame's guild — unchanged. -/
theorem wsClosed_with_track_publishes_channelClosed (decode : String → Track) (st : ClientState)
    (e : EventFrame) (h : String)
    (htrack : e.track = some h) (hne : h.isEmpty = false) (htype : e.etype = "WebSocketClosedEvent") :
    callback decode st (.event e) =
      .ok (st, [], [Emitted.webSocketClosed (decode h) e.guildId e.code e.reason e.byRemote]) := by
  simp [callback, htrack, hne, htype]

/-- Inbound WebSocketClosedEvent frame carrying track handle "A". -/
def evWs : EventFrame :=
  { track := some "A", guildId := 1, etype := "WebSocketClosedEvent", reason := "closed", code := 4000, byRemote := true }

/-- Witness for C7's amended theorem at the concrete state `stR`. -/
theorem wsClosed_witness :
    callback mkTrack stR (.event evWs) =
      .ok (stR, [], [Emitted.webSocketClosed (mkTrack "A") 1 4000 "closed" true]) :=
  wsClosed_with_track_publishes_channelClosed mkTrack stR evWs "A" rfl rfl rfl

/-- C8 (counterexample): voice_update with channel_id None for an absent
session raises NodeError instead of being a no-op, and voice_update with
the present channel id 0 (falsy in the source's truthiness test) takes the
disconnect path: it sends a destroy frame, not a voiceUpdate frame, and
removes the session. -/
theorem voice_update_claim_false :
    voice_update initState 1 "sid" "tok" "wss://ep" none = .error (.nodeError "Node not found" 1)
    ∧ framesOf (voice_update stW 1 "sid" "tok" "wss://ep" (some 0)) = [Frame.destroy 1]
    ∧ (stateOf stW (voice_update stW 1 "sid" "tok" "wss://ep" (some 0))).nodes 1 = none :=
  ⟨rfl, rfl, rfl⟩

/-- C8 (amended): a falsy channel id (None or 0) is a disconnect — for an
existing well-keyed session the registry entry is removed and one destroy
frame is sent, for an absent session NodeError is raised — and in neither
case is a voiceUpdate frame sent; a nonzero channel id sends exactly one
voiceUpdate frame with the endpoint's "wss://" prefix text removed and
leaves the session present with is_connected = true. -/
theorem voice_update_behavior :
    (∀ (st : ClientState) (gid : Nat) (sid tok ep : String) (ch : Option Int) (node : Node),
       channelFalsy ch = true → get_guild_node st gid = some node → node.guild_id = gid →
       voice_update st gid sid tok ep ch =
         .ok ({ st with nodes := fun g => if g = gid then none else st.nodes g }, [Frame.destroy gid]))
    ∧ (∀ (st : ClientState) (gid : Nat) (sid tok ep : String) (ch : Option Int),
       channelFalsy ch = true → get_guild_node st gid = none →
       voice_update st gid sid tok ep ch = .error (.nodeError "Node not found" gid))
    ∧ (∀ (st : ClientState) (gid : Nat) (sid tok ep : String) (c : Int), c ≠ 0 →
       voice_update st gid sid tok ep (some c) =
         .ok (create_new_node st gid true, [Frame.voiceUpdate gid sid tok (ep.replace "wss://" "")])
       ∧ get_guild_node (create_new_node st gid true) gid =
           some { guild_id := gid, queue := [], volume := 100, is_connected := true }) := by
  refine ⟨?_, ?_, ?_⟩
  · intro st gid sid tok ep ch node hf hnode hkey
    have hn2 : st.nodes gid = some node := hnode
    simp [voice_update, hf, destroy, remove_guild_node, hnode, hkey, hn2]
  · intro st gid sid tok ep ch hf hnode
    simp [voice_update, hf, destroy, hnode]
  · intro st gid sid tok ep c hc
    constructor
    · simp [voice_update, channelFalsy, hc]
    · exact get_set_eq _ _ _

/-- Witness for C8's amended theorem: all three branches at concrete
inputs. -/
theorem voice_update_witness :
    voice_update stT 1 "s" "t" "e" none =
      .ok ({ stT with nodes := fun g => if g = 1 then none else stT.nodes g }, [Frame.destroy 1])
    ∧ voice_update initState 1 "s" "t" "e" none = .error (.nodeError "Node not found" 1)
    ∧ (voice_update stW 1 "s" "t" "wss://e" (some 5) =
         .ok (create_new_node stW 1 true, [Frame.voiceUpdate 1 "s" "t" (String.replace "wss://e" "wss://" "")])
       ∧ get_guild_node (create_new_node stW 1 true) 1 =
           some { guild_id := 1, queue := [], volume := 100, is_connected := true }) :=
  ⟨voice_update_behavior.1 stT 1 "s" "t" "e" none nodeT rfl rfl rfl,
   voice_update_behavior.2.1 initState 1 "s" "t" "e" none rfl rfl,
   voice_update_behavior.2.2 stW 1 "s" "t" "wss://e" 5 (by decide)⟩

theorem listRemove_cons_self (a : Track) (l : List Track) : listRemove (a :: l) a = l := by
  simp [listRemove]

/-- C9: shuffle on an existing session is a no-op returning the empty
result when the queue is empty; on a non-empty queue, whenever the sampler
returns a permutation of its input (the contract of
`random.sample(q, len(q))`), the head stays at index 0, the stored queue is
a permutation of the original of the same length, and the updated session
is persisted and returned. -/
theorem shuffle_preserves_head_and_multiset :
    (∀ (sample : List Track → List Track) (st : ClientState) (gid : Nat) (node : Node),
       get_guild_node st gid = some node → node.queue = [] →
       shuffle sample st gid = .ok (st, none))
    ∧ (∀ (sample : List Track → List Track) (st : ClientState) (gid : Nat) (node : Node)
         (q0 : Track) (qt : List Track),
       get_guild_node st gid = some node → node.queue = q0 :: qt → (sample qt).Perm qt →
       ∃ node', shuffle sample st gid = .ok (set_guild_node st gid node', some node')
         ∧ node'.queue = q0 :: sample qt
         ∧ node'.queue.length = node.queue.length
         ∧ node'.queue.Perm node.queue) := by
  constructor
  · intro sample st gid node h hq
    simp [shuffle, h, hq]
  · intro sample st gid node q0 qt h hq hperm
    refine ⟨{ node with queue := q0 :: sample qt }, ?_, rfl, ?_, ?_⟩
    · simp [shuffle, h, hq, listRemove_cons_self]
    · simp [hq, hperm.length_eq]
    · rw [hq]
      exact List.Perm.cons q0 hperm

/-- Witness for C9: the empty-queue no-op at `stW` and the identity sampler
on the two-element queue of `stT`. -/
theorem shuffle_witness :
    shuffle id stW 1 = .ok (stW, none)
    ∧ ∃ node', shuffle id stT 1 = .ok (set_guild_node stT 1 node', some node')
        ∧ node'.queue = mkTrack "B" :: id [mkTrack "C"]
        ∧ node'.queue.length = nodeT.queue.length
        ∧ node'.queue.Perm nodeT.queue :=
  ⟨shuffle_preserves_head_and_multiset.1 id stW 1 nodeW rfl rfl,
   shuffle_preserves_head_and_multiset.2 id stT 1 nodeT (mkTrack "B") [mkTrack "C"]
     rfl rfl (List.Perm.refl _)⟩

/-- C10: every per-session command invoked for guild `gid` on a well-keyed
registry leaves the registry entry of every other guild `g'` untouched —
whether the command succeeds (its result state agrees with the original at
`g'`) or raises (the original state survives unchanged, as no raising path
in the source mutates first). -/
theorem command_isolation_other_guilds (st : ClientState) (gid g' : Nat)
    (hne : g' ≠ gid) (hwk : WellKeyed st) :
    (∀ (track : Track) (req : Option Nat) (start : Bool),
       (stateOf st (play st gid track req start)).nodes g' = st.nodes g')
    ∧ (stateOf st (stop st gid)).nodes g' = st.nodes g'
    ∧ (stateOf st (skip st gid)).nodes g' = st.nodes g'
    ∧ (∀ b, (stateOf st (pause st gid b)).nodes g' = st.nodes g')
    ∧ (∀ p : Int, (stateOf st (seek st gid p)).nodes g' = st.nodes g')
    ∧ (∀ v : Int, (stateOf st (volume st gid v)).nodes g' = st.nodes g')
    ∧ (∀ b, (stateOf st («repeat» st gid b)).nodes g' = st.nodes g')
    ∧ (∀ sample, (stateOf st (shuffle sample st gid)).nodes g' = st.nodes g')
    ∧ (stateOf st (destroy st gid)).nodes g' = st.nodes g'
    ∧ (∀ (sid tok ep : String) (ch : Option Int),
       (stateOf st (voice_update st gid sid tok ep ch)).nodes g' = st.nodes g') := by
  have hdestroy : (stateOf st (destroy st gid)).nodes g' = st.nodes g' := by
    cases hget : get_guild_node st gid with
    | none => simp [destroy, stateOf, hget]
    | some node =>
      have hkey : node.guild_id = gid := hwk gid node hget
      have hn2 : st.nodes gid = some node := hget
      simp [destroy, remove_guild_node, stateOf, hget, hkey, hn2, hne]
  refine ⟨?_, ?_, ?_, ?_, ?_, ?_, ?_, ?_, hdestroy, ?_⟩
  · intro track req start
    cases hget : get_guild_node st gid with
    | none => simp [play, stateOf, hget]
    | some node =>
      cases start with
      | true => simp [play, stateOf, hget]
      | false =>
        by_cases hq : node.queue = []
        · simp [play, stateOf, hget, hq, set_guild_node, hne]
        · simp [play, stateOf, hget, hq, set_guild_node, hne]
  · cases hget : get_guild_node st gid with
    | none => simp [stop, stateOf, hget]
    | some node =>
      by_cases hq : node.queue.length = 0
      · simp [stop, stateOf, hget, hq]
      · simp [stop, stateOf, hget, hq, set_guild_node, hne]
  · cases hget : get_guild_node st gid with
    | none => simp [skip, stateOf, hget]
    | some node =>
      by_cases hq : node.queue.length = 0
      · simp [skip, stateOf, hget, hq]
      · simp [skip, stateOf, hget, hq]
  · intro b
    cases hget : get_guild_node st gid with
    | none => simp [pause, stateOf, hget]
    | some node => simp [pause, stateOf, hget]
  · intro p
    cases hget : get_guild_node st gid with
    | none => simp [seek, stateOf, hget]
    | some node => simp [seek, stateOf, hget]
  · intro v
    by_cases hv : v < 0 ∨ v > 1000
    · simp [volume, stateOf, hv]
    · cases hget : get_guild_node st gid with
      | none => simp [volume, stateOf, hv, hget]
      | some node => simp [volume, stateOf, hv, hget, set_guild_node, hne]
  · intro b
    cases hget : get_guild_node st gid with
    | none => simp [«repeat», stateOf, hget]
    | some node => simp [«repeat», stateOf, hget, set_guild_node, hne]
  · intro sample
    cases hget : get_guild_node st gid with
    | none => simp [shuffle, stateOf, hget]
    | some node =>
      cases hq : node.queue with
      | nil => simp [shuffle, stateOf, hget, hq]
      | cons a l => simp [shuffle, stateOf, hget, hq, set_guild_node, hne]
  · intro sid tok ep ch
    cases hch : channelFalsy ch with
    | true => simpa [voice_update, stateOf, hch] using hdestroy
    | false => simp [voice_update, stateOf, hch, create_new_node, set_guild_node, hne]

theorem wellKeyed_stW : WellKeyed stW := by
  intro g n h
  by_cases hg : g = 1
  · subst hg
    simp [stW] at h
    rw [← h]
    rfl
  · simp [stW, hg] at h

/-- Witness for C10: stopping guild 1 leaves guild 2's registry slot of
`stW` unchanged. -/
theorem command_isolation_witness :
    (2 : Nat) ≠ 1 ∧ (stateOf stW (stop stW 1)).nodes 2 = stW.nodes 2 :=
  ⟨by decide, (command_isolation_other_guilds stW 1 2 (by decide) wellKeyed_stW).2.1⟩

end Lavaplayer
